import Mathlib

/-!
Shallow embedding of the TemperatureMonitor core: the React client
(`App.tsx`, trailing-window variant) and the Netlify serverless caching
proxy.  JavaScript numbers are modelled as exact rationals extended with a
NaN element (`JSNum`); binary floating-point rounding is not modelled, only
the NaN propagation and comparison semantics the program's logic depends on.
-/

attribute [local semireducible] Rat.add Rat.mul Rat.inv Rat.sub Rat.ofScientific

namespace TemperatureMonitor

/-- A JavaScript number as this program uses it: either NaN or a finite
value, modelled as an exact rational. -/
inductive JSNum where
  | nan : JSNum
  | num (q : ℚ) : JSNum
deriving DecidableEq, Repr

/-- JavaScript addition on the values this program produces: NaN absorbs,
otherwise exact addition. -/
def jsAdd : JSNum → JSNum → JSNum
  | JSNum.nan, _ => JSNum.nan
  | _, JSNum.nan => JSNum.nan
  | JSNum.num a, JSNum.num b => JSNum.num (a + b)

/-- JavaScript multiplication: NaN absorbs, otherwise exact. -/
def jsMul : JSNum → JSNum → JSNum
  | JSNum.nan, _ => JSNum.nan
  | _, JSNum.nan => JSNum.nan
  | JSNum.num a, JSNum.num b => JSNum.num (a * b)

/-- JavaScript division as this program can reach it.  The only zero
denominator the program produces is the empty-window average `0 / 0`,
which is NaN in JavaScript, so every zero denominator is sent to NaN. -/
def jsDiv : JSNum → JSNum → JSNum
  | JSNum.nan, _ => JSNum.nan
  | _, JSNum.nan => JSNum.nan
  | JSNum.num a, JSNum.num b => if b = 0 then JSNum.nan else JSNum.num (a / b)

/-- JavaScript strict `<`: any comparison involving NaN is false. -/
def jsLt : JSNum → JSNum → Bool
  | JSNum.num a, JSNum.num b => decide (a < b)
  | _, _ => false

/-- `Math.round` on a finite value rounds half toward positive infinity,
which is the floor of `x + 1/2`; `Math.round(NaN)` is NaN. -/
def jsRound : JSNum → JSNum
  | JSNum.nan => JSNum.nan
  | JSNum.num q => JSNum.num (((q + 1/2).floor : ℤ) : ℚ)

/-- `Math.round(x * 10) / 10` — round to one decimal place. -/
def roundTo1 (x : JSNum) : JSNum :=
  jsDiv (jsRound (jsMul x (JSNum.num 10))) (JSNum.num 10)

/-- One raw reading as delivered by the upstream API. -/
structure TemperatureDataPoint where
  datetime : String
  temperatur : String
deriving DecidableEq, Repr

/-- One normalized chart point (`ChartData` in `App.tsx`). -/
structure ChartData where
  datetime : String
  temperature : JSNum
  time : String
  date : String
deriving DecidableEq, Repr

/-- Accumulate a run of decimal digits: the value read so far, the number of
digits consumed, and the remaining characters. -/
def parseDigits : ℕ → ℕ → List Char → ℕ × ℕ × List Char
  | acc, cnt, [] => (acc, cnt, [])
  | acc, cnt, c :: rest =>
    if c.isDigit then parseDigits (acc * 10 + (c.toNat - 48)) (cnt + 1) rest
    else (acc, cnt, c :: rest)

/-- Model of JavaScript `parseFloat` on the plain decimal strings this API
delivers: optional leading whitespace, optional sign, integer digits, an
optional fractional part; no digit at all yields NaN.  Exponents and
`Infinity` are not modelled — the upstream sends plain decimal text. -/
def jsParseFloat (s : String) : JSNum :=
  let cs := s.toList.dropWhile fun c => c == ' ' || c == '\t' || c == '\n'
  let signRest : ℚ × List Char :=
    match cs with
    | '-' :: rest => (-1, rest)
    | '+' :: rest => (1, rest)
    | _ => (1, cs)
  let intPart := parseDigits 0 0 signRest.2
  let fracPart :=
    match intPart.2.2 with
    | '.' :: rest => parseDigits 0 0 rest
    | _ => (0, 0, intPart.2.2)
  if intPart.2.1 = 0 ∧ fracPart.2.1 = 0 then JSNum.nan
  else JSNum.num (signRest.1 * ((intPart.1 : ℚ) + (fracPart.1 : ℚ) / (10 : ℚ) ^ fracPart.2.1))

/-- `convertApiDataToChartData` from `App.tsx`: maps every raw point to a
chart point, parsing the temperature text with `parseFloat`.  The locale
formatting of `new Date(point.datetime)` (`toLocaleTimeString`,
`toLocaleDateString`) is abstracted by the `fmtTime` and `fmtDate`
parameters; every claim about this function holds for all formatters. -/
def convertApiDataToChartData (fmtTime fmtDate : String → String)
    (apiData : List TemperatureDataPoint) : List ChartData :=
  apiData.map fun point =>
    { datetime := point.datetime
      temperature := jsParseFloat point.temperatur
      time := fmtTime point.datetime
      date := fmtDate point.datetime }

/-- `calculateMovingAverage` from the trailing-window `App.tsx` variant: for
index `i` the window is `data.slice(max(0, i - windowSize + 1), i + 1)`; the
window average (`reduce` then divide by the window length) is rounded to one
decimal place and replaces the point's temperature, every other field being
kept by the `...point` spread. -/
def calculateMovingAverage (data : List ChartData) (windowSize : ℤ) : List ChartData :=
  data.mapIdx fun index point =>
    let start : ℤ := max 0 ((index : ℤ) - windowSize + 1)
    let stop : ℤ := (index : ℤ) + 1
    let windowData := (data.take stop.toNat).drop start.toNat
    let sum := windowData.foldl (fun acc item => jsAdd acc item.temperature) (JSNum.num 0)
    let average := jsDiv sum (JSNum.num (windowData.length : ℚ))
    { point with temperature := roundTo1 average }

/-- A season verdict (`seasonInfo` state in `App.tsx`). -/
structure SeasonInfo where
  season : String
  message : String
deriving DecidableEq, Repr

/-- `5 * 24` — the five-day lookback in hourly samples. -/
def hoursIn5Days : ℕ := 5 * 24

/-- `detectSeason` from `App.tsx`.  `slice(-hoursIn5Days)` keeps the last 120
elements (or the whole list when shorter), which is `drop (length - 120)`
with truncated subtraction; each backwards counting loop breaks at the first
element failing its threshold, which is `takeWhile` on the reversed list. -/
def detectSeason (movingAvgData : List ChartData) : SeasonInfo :=
  let last5Days := movingAvgData.drop (movingAvgData.length - hoursIn5Days)
  let hasBeenAbove10InLast5Days :=
    last5Days.any fun point => jsLt (JSNum.num 10) point.temperature
  let consecutiveHoursBelow0 :=
    (movingAvgData.reverse.takeWhile fun p => jsLt p.temperature (JSNum.num 0)).length
  let consecutiveHoursBelow10 :=
    (movingAvgData.reverse.takeWhile fun p => jsLt p.temperature (JSNum.num 10)).length
  if hoursIn5Days ≤ consecutiveHoursBelow0 then
    { season := "winter", message := "Seems like it is winter!" }
  else if hoursIn5Days ≤ consecutiveHoursBelow10 then
    { season := "autumn", message := "Seems like it is autumn!" }
  else if hasBeenAbove10InLast5Days then
    { season := "summer", message := "Seems like it is summer!" }
  else
    { season := "unknown", message := "" }

example : jsParseFloat "-1.0" = JSNum.num (-1) := by decide
example : jsParseFloat "50.0" = JSNum.num 50 := by decide
example : jsParseFloat "abc" = JSNum.nan := by decide
example : jsParseFloat "12.3" = JSNum.num (123 / 10) := by decide

/-- `CACHE_DURATION_MS = 55 * 60 * 1000` — the 55-minute TTL in
milliseconds, shared by the browser cache and the serverless cache. -/
def CACHE_DURATION_MS : ℤ := 55 * 60 * 1000

/-- Browser-side `isCacheValid` from `App.tsx`: the stored creation
timestamp against the current wall-clock time (`Date.now()`), strict
less-than. -/
def isCacheValid (timestamp now : ℤ) : Bool :=
  decide (now - timestamp < CACHE_DURATION_MS)

/-- A station object from the upstream API response. -/
structure Station where
  title : String
  id : String
  temp : String
  data : List TemperatureDataPoint
deriving DecidableEq, Repr

/-- The parsed upstream API response body (the fields the functions use). -/
structure ApiData where
  stations : List Station
deriving DecidableEq, Repr

/-- The Netlify function's module-level mutable cache: `data`, `timestamp`
and `stationInfo` all start as `null`. -/
structure ServerCache where
  data : Option ApiData
  timestamp : Option ℤ
  stationInfo : Option Station
deriving DecidableEq, Repr

/-- `isCacheValid` from the Netlify function.  The guard
`!cache.timestamp || !cache.data` is JavaScript truthiness: a `null`
timestamp, a numerically zero timestamp and a `null` data object are all
treated as no entry; otherwise `now - timestamp < CACHE_DURATION_MS`. -/
def serverIsCacheValid (cache : ServerCache) (now : ℤ) : Bool :=
  match cache.timestamp, cache.data with
  | some t, some _ => if t = 0 then false else decide (now - t < CACHE_DURATION_MS)
  | _, _ => false

/-- The bodies the Netlify function can serialise into its response. -/
inductive ResponseBody where
  | empty
  | methodNotAllowed
  | success (cached : Bool) (timestamp : ℤ) (stations : List Station)
      (stationInfo : Option Station)
  | failure (error : String) (timestamp : ℤ)
deriving DecidableEq, Repr

/-- The Netlify function's HTTP response: status code, the two cache
headers it varies, and the body.  The constant CORS headers are elided. -/
structure HandlerResponse where
  statusCode : ℕ
  cacheControl : Option String
  xCacheStatus : Option String
  body : ResponseBody
deriving DecidableEq, Repr

/-- Outcome of the single upstream fetch the handler awaits: a parsed JSON
body, or a rejection (network error, timeout, JSON parse failure). -/
inductive FetchOutcome where
  | ok (apiData : ApiData)
  | err (msg : String)
deriving DecidableEq, Repr

/-- The Netlify function `handler`, as a pure function of the request
method, the module-level cache, the upstream fetch outcome and the current
time; it returns the HTTP response together with the cache left behind.
The branch structure, status codes, cache headers and body fields follow
the source line by line; `throw` inside the `try` lands in the `catch`
block, which serialises `{ success: false, error, timestamp }` with
status 500. -/
def handler (method : String) (cache : ServerCache) (fetched : FetchOutcome)
    (now : ℤ) : HandlerResponse × ServerCache :=
  if method = "OPTIONS" then
    ({ statusCode := 200, cacheControl := none, xCacheStatus := none
       body := ResponseBody.empty }, cache)
  else if method ≠ "GET" then
    ({ statusCode := 405, cacheControl := none, xCacheStatus := none
       body := ResponseBody.methodNotAllowed }, cache)
  else if serverIsCacheValid cache now then
    ({ statusCode := 200
       cacheControl := some "public, max-age=3300"
       xCacheStatus := some "HIT"
       body := ResponseBody.success true (cache.timestamp.getD 0)
         ((cache.data.map ApiData.stations).getD []) cache.stationInfo }, cache)
  else
    match fetched with
    | FetchOutcome.err msg =>
      ({ statusCode := 500, cacheControl := none, xCacheStatus := none
         body := ResponseBody.failure msg now }, cache)
    | FetchOutcome.ok apiData =>
      if apiData.stations.isEmpty then
        ({ statusCode := 500, cacheControl := none, xCacheStatus := none
           body := ResponseBody.failure "No stations data received from API" now },
         cache)
      else
        ({ statusCode := 200
           cacheControl := some "public, max-age=3300"
           xCacheStatus := some "MISS"
           body := ResponseBody.success false now apiData.stations
             apiData.stations.head? },
         { data := some apiData, timestamp := some now
           stationInfo := apiData.stations.head? })

/-- Season shown by the browser cache-hit branch of `fetchTemperatureData`
(trailing-window `App.tsx` variant): `detectSeason(chartData)` — the raw
converted series — although `calculateMovingAverage(chartData, 24)` is
computed on the preceding line for the chart. -/
def cacheHitSeasonInfo (fmtTime fmtDate : String → String)
    (cachedData : List TemperatureDataPoint) : SeasonInfo :=
  detectSeason (convertApiDataToChartData fmtTime fmtDate cachedData)

/-- Season shown by the fresh-fetch and fallback branches of
`fetchTemperatureData`: `detectSeason(calculateMovingAverage(chartData, 24))`. -/
def freshSeasonInfo (fmtTime fmtDate : String → String)
    (stationData : List TemperatureDataPoint) : SeasonInfo :=
  detectSeason
    (calculateMovingAverage (convertApiDataToChartData fmtTime fmtDate stationData) 24)

/-- 120 hourly readings of `-1.0` followed by a single `50.0` spike: a
concrete week of data distinguishing the raw series from its 24-hour
trailing average. -/
def coldThenSpike : List TemperatureDataPoint :=
  List.replicate 120 { datetime := "d", temperatur := "-1.0" } ++
    [{ datetime := "d", temperatur := "50.0" }]

/-- If the first `n` elements of `xs` all satisfy `p`, then `takeWhile p`
keeps at least `n` elements. -/
theorem le_length_takeWhile_of_take {α : Type} {p : α → Bool} :
    ∀ (n : ℕ) (xs : List α), n ≤ xs.length → (∀ x ∈ xs.take n, p x = true) →
      n ≤ (xs.takeWhile p).length := by
  intro n
  induction n with
  | zero => exact fun xs _ _ => Nat.zero_le _
  | succ m ih =>
    intro xs hlen hall
    cases xs with
    | nil => simp at hlen
    | cons x rest =>
      have hx : p x = true := hall x (by simp)
      have hrest : ∀ y ∈ rest.take m, p y = true := fun y hy =>
        hall y (by simp [List.take_succ_cons, hy])
      simp only [List.takeWhile_cons, hx, if_true, List.length_cons]
      exact Nat.succ_le_succ (ih rest (by simpa using hlen) hrest)

/-- C1: season priority ordering — whenever the smoothed series has at
least 120 elements and its last 120 elements all have value `-1.0`,
`detectSeason` returns the winter verdict, not the also-satisfied autumn
one: the winter condition is evaluated first and the first match wins. -/
theorem detectSeason_winter_priority (l : List ChartData)
    (hlen : hoursIn5Days ≤ l.length)
    (hcold : ∀ p ∈ l.reverse.take hoursIn5Days, p.temperature = JSNum.num (-1)) :
    detectSeason l = { season := "winter", message := "Seems like it is winter!" } := by
  have hcount : hoursIn5Days ≤
      (l.reverse.takeWhile fun p => jsLt p.temperature (JSNum.num 0)).length :=
    le_length_takeWhile_of_take hoursIn5Days l.reverse (by simpa using hlen)
      fun x hx => by rw [hcold x hx]; decide
  simp only [detectSeason]
  rw [if_pos hcount]

set_option maxRecDepth 10000 in
/-- Witness for `detectSeason_winter_priority`: 120 points of `-1.0`. -/
theorem detectSeason_winter_priority_witness :
    hoursIn5Days ≤
        (List.replicate 120 (⟨"d", JSNum.num (-1), "ti", "da"⟩ : ChartData)).length ∧
      (∀ p ∈ (List.replicate 120
            (⟨"d", JSNum.num (-1), "ti", "da"⟩ : ChartData)).reverse.take hoursIn5Days,
        p.temperature = JSNum.num (-1)) ∧
      detectSeason (List.replicate 120 ⟨"d", JSNum.num (-1), "ti", "da"⟩) =
        { season := "winter", message := "Seems like it is winter!" } :=
  ⟨by decide, by decide, detectSeason_winter_priority _ (by decide) (by decide)⟩

/-- C4: for every series and every window size `w > 0`, the moving-average
smoother returns a series of exactly the same length. -/
theorem calculateMovingAverage_length (data : List ChartData) (w : ℤ)
    (hw : 0 < w) :
    (calculateMovingAverage data w).length = data.length := by
  simp [calculateMovingAverage]

/-- Witness for `calculateMovingAverage_length` at a one-point series. -/
theorem calculateMovingAverage_length_witness :
    (0 : ℤ) < 24 ∧
      (calculateMovingAverage [⟨"t", JSNum.num 5, "ti", "d"⟩] 24).length = 1 :=
  ⟨by decide, calculateMovingAverage_length _ 24 (by decide)⟩

/-- C10: `detectSeason` is total and always returns one of the four labels
winter, autumn, summer, unknown, and its message is empty exactly when the
season is unknown. -/
theorem detectSeason_verdict_invariant (l : List ChartData) :
    ((detectSeason l).season = "winter" ∨ (detectSeason l).season = "autumn" ∨
        (detectSeason l).season = "summer" ∨ (detectSeason l).season = "unknown") ∧
      ((detectSeason l).message = "" ↔ (detectSeason l).season = "unknown") := by
  simp only [detectSeason]
  split_ifs <;> decide

/-- C6: with `windowSize = 0` every window is empty, the average is the
JavaScript division `0 / 0 = NaN`, and the smoother returns a full-length
series of NaN temperatures instead of failing fast. -/
theorem calculateMovingAverage_zero_window :
    calculateMovingAverage [⟨"t", JSNum.num 5, "ti", "d"⟩] 0 =
      [⟨"t", JSNum.nan, "ti", "d"⟩] := by decide

/-- C3: a reading whose temperature text is not numeric is kept rather than
excluded: `parseFloat` yields NaN, the output has the same length as the
input, and the NaN value appears in the normalized output. -/
theorem convertApiDataToChartData_keeps_malformed :
    (convertApiDataToChartData id id [⟨"2025-01-01 00:00", "abc"⟩]).length = 1 ∧
      ((convertApiDataToChartData id id [⟨"2025-01-01 00:00", "abc"⟩]).map
        fun p => p.temperature) = [JSNum.nan] := by decide

/-- C7 counterexample: for the one-point series with temperature `3.14`
(the rational `157/50`) and window 24, the smoothed value at index 0 is the
rounded `3.1`, not `3.14` — the boundary value is not kept exactly. -/
theorem calculateMovingAverage_head_rounds :
    ((calculateMovingAverage [⟨"t", JSNum.num (157/50), "ti", "d"⟩] 24).map
        fun p => p.temperature) = [JSNum.num (31/10)] ∧
      ((calculateMovingAverage [⟨"t", JSNum.num (157/50), "ti", "d"⟩] 24).map
        fun p => p.temperature) ≠ [JSNum.num (157/50)] := by decide

/-- The average of the singleton window `[x]` is `x` itself. -/
theorem jsDiv_jsAdd_zero_one (x : JSNum) :
    jsDiv (jsAdd (JSNum.num 0) x) (JSNum.num 1) = x := by
  cases x with
  | nan => rfl
  | num q => simp [jsAdd, jsDiv]

/-- C7 amended: for every non-empty series and window `w ≥ 1`, the trailing
window at index 0 shrinks to the singleton `[S[0]]`, so the smoothed value
at index 0 equals `S[0].temperature` rounded to one decimal place (hence
equals it exactly whenever it already is a one-decimal value). -/
theorem calculateMovingAverage_head (pt : ChartData) (rest : List ChartData)
    (w : ℤ) (hw : 1 ≤ w) :
    (calculateMovingAverage (pt :: rest) w).head? =
      some { pt with temperature := roundTo1 pt.temperature } := by
  rw [calculateMovingAverage, List.head?_mapIdx]
  have hmax : max (0 : ℤ) (0 - w + 1) = 0 := max_eq_left (by omega)
  simp only [List.head?_cons, Option.map_some', Nat.cast_zero, zero_add, hmax,
    Int.toNat_zero, Int.toNat_one, List.take_succ_cons, List.take_zero,
    List.drop_zero, List.foldl_cons, List.foldl_nil, List.length_cons,
    List.length_nil, Nat.cast_one, jsDiv_jsAdd_zero_one]

/-- Witness for `calculateMovingAverage_head`: a one-decimal head value is
kept exactly. -/
theorem calculateMovingAverage_head_witness :
    (1 : ℤ) ≤ 24 ∧
      (calculateMovingAverage
          [⟨"t", JSNum.num 5, "ti", "d"⟩, ⟨"u", JSNum.num 7, "tj", "e"⟩] 24).head? =
        some ⟨"t", JSNum.num 5, "ti", "d"⟩ := by
  refine ⟨by decide, ?_⟩
  rw [calculateMovingAverage_head _ _ 24 (by decide)]
  decide

/-- C9: frame property of smoothing — at every index the smoothed series
keeps the source element's datetime and display time/date fields; only the
temperature field is replaced (by the rounded window average, per the
definition of `calculateMovingAverage`). -/
theorem calculateMovingAverage_frame (data : List ChartData) (w : ℤ)
    (hw : 0 < w) :
    ((calculateMovingAverage data w).map fun p => (p.datetime, p.time, p.date)) =
      data.map fun p => (p.datetime, p.time, p.date) := by
  apply List.ext_getElem?
  intro i
  simp only [List.getElem?_map, calculateMovingAverage, List.getElem?_mapIdx]
  cases data[i]? with
  | none => rfl
  | some a => rfl

/-- Witness for `calculateMovingAverage_frame` at a one-point series. -/
theorem calculateMovingAverage_frame_witness :
    (0 : ℤ) < 24 ∧
      ((calculateMovingAverage [⟨"t", JSNum.num (157/50), "ti", "d"⟩] 24).map
          fun p => (p.datetime, p.time, p.date)) = [("t", "ti", "d")] :=
  ⟨by decide, calculateMovingAverage_frame _ 24 (by decide)⟩

/-- C5: the 55-minute TTL boundary is exclusive, for both the browser-side
and the server-side validity check.  `0 < createdAt` reflects that every
stored entry carries a positive `Date.now()` timestamp (the server guard
treats a numerically zero timestamp as absent, by JavaScript truthiness). -/
theorem isCacheValid_boundary (createdAt nowAtTtl nowJustBefore : ℤ)
    (d : ApiData) (si : Option Station) (hpos : 0 < createdAt)
    (hAt : nowAtTtl - createdAt = CACHE_DURATION_MS)
    (hBefore : nowJustBefore - createdAt = CACHE_DURATION_MS - 1) :
    isCacheValid createdAt nowAtTtl = false ∧
      serverIsCacheValid ⟨some d, some createdAt, si⟩ nowAtTtl = false ∧
      isCacheValid createdAt nowJustBefore = true ∧
      serverIsCacheValid ⟨some d, some createdAt, si⟩ nowJustBefore = true := by
  have hne : createdAt ≠ 0 := by omega
  simp only [isCacheValid, serverIsCacheValid, if_neg hne,
    decide_eq_false_iff_not, decide_eq_true_eq, not_lt, CACHE_DURATION_MS] at *
  omega

/-- Witness for `isCacheValid_boundary` at `createdAt = 1`. -/
theorem isCacheValid_boundary_witness :
    ((0 : ℤ) < 1 ∧ (3300001 : ℤ) - 1 = CACHE_DURATION_MS ∧
        (3300000 : ℤ) - 1 = CACHE_DURATION_MS - 1) ∧
      (isCacheValid 1 3300001 = false ∧
        serverIsCacheValid ⟨some ⟨[]⟩, some 1, none⟩ 3300001 = false ∧
        isCacheValid 1 3300000 = true ∧
        serverIsCacheValid ⟨some ⟨[]⟩, some 1, none⟩ 3300000 = true) :=
  ⟨⟨by decide, by decide, by decide⟩,
    isCacheValid_boundary 1 3300001 3300000 ⟨[]⟩ none (by decide) (by decide)
      (by decide)⟩

/-- C8 counterexample: on a failed upstream fetch with an empty cache the
proxy handler responds with HTTP status 500 — a 5xx — not 200. -/
theorem handler_upstream_failure_is_500 :
    (handler "GET" ⟨none, none, none⟩ (FetchOutcome.err "Request timeout") 0).1 =
        { statusCode := 500, cacheControl := none, xCacheStatus := none
          body := ResponseBody.failure "Request timeout" 0 } ∧
      (handler "GET" ⟨none, none, none⟩
          (FetchOutcome.err "Request timeout") 0).1.statusCode ≠ 200 := by
  decide

/-- C8 amended: for every GET request whose cache is not valid and whose
upstream fetch fails, the handler responds with status 500 and the body
`{ success: false, error, timestamp }`, leaving the cache unchanged. -/
theorem handler_failure_response (cache : ServerCache) (msg : String) (now : ℤ)
    (hcache : serverIsCacheValid cache now = false) :
    handler "GET" cache (FetchOutcome.err msg) now =
      ({ statusCode := 500, cacheControl := none, xCacheStatus := none
         body := ResponseBody.failure msg now }, cache) := by
  simp [handler, hcache]

/-- Witness for `handler_failure_response` on the initial empty cache. -/
theorem handler_failure_response_witness :
    serverIsCacheValid ⟨none, none, none⟩ 0 = false ∧
      handler "GET" ⟨none, none, none⟩ (FetchOutcome.err "boom") 0 =
        ({ statusCode := 500, cacheControl := none, xCacheStatus := none
           body := ResponseBody.failure "boom" 0 }, ⟨none, none, none⟩) :=
  ⟨by decide, handler_failure_response ⟨none, none, none⟩ "boom" 0 (by decide)⟩

set_option maxRecDepth 10000 in
/-- C2: the cache-hit branch of `fetchTemperatureData` passes the raw
normalized series — not the smoothed one — to `detectSeason`: for a week of
`-1.0` readings ending in a single `50.0` spike, the cache-hit branch
announces summer while the fresh-fetch and fallback branches, which
classify `calculateMovingAverage(chartData, 24)`, announce autumn. -/
theorem cacheHitSeasonInfo_uses_raw_series :
    cacheHitSeasonInfo id id coldThenSpike =
        { season := "summer", message := "Seems like it is summer!" } ∧
      freshSeasonInfo id id coldThenSpike =
        { season := "autumn", message := "Seems like it is autumn!" } ∧
      cacheHitSeasonInfo id id coldThenSpike ≠ freshSeasonInfo id id coldThenSpike := by
  refine ⟨by decide, by decide, ?_⟩
  decide

end TemperatureMonitor
